import Mathlib

/-!
Verification of the loan-application review pipeline.

The development shallowly embeds the orchestration core of the repository:
the rule engine, policy guard, pipeline nodes and used-tools accumulator of
`agent/graph.py`, the mock KYC/credit tools of `tools.py`, the similarity
retriever wrapper of `agent/similarity_memory.py`, and the agent-review
variant of `agent_with_llm.py` (decision normalization, loan-to-income
ratio, detailed-reason fallback, compliance-failure path).

Modelling conventions:
* Python numbers (ints and floats) are modelled as rationals `ℚ`; Python
  `round` is modelled as round-half-to-even over `ℚ`.
* Python strings are Lean `String`s; the Python string operations that
  proofs must evaluate (substring test, `lower`, `startswith`, `join`,
  slicing, `strip`) are defined structurally over the underlying character
  list so the kernel can reduce them.
* External effects (HTTP calls, the Ollama/TinyLlama generative model, the
  Chroma vector store) are modelled as explicit oracle parameters: each
  fallible call site receives an `Except`/`Option` outcome, mirroring the
  `try/except` structure of the source.
* Python dict truthiness/`or` defaulting is modelled explicitly
  (`Option`, emptiness tests), following the source line by line.
-/

namespace LoanApp

/-! ### Python-style string primitives (structural, kernel-reducible) -/

/-- Occurrence of `pat` as a contiguous sublist of a list (Python `in` on
strings, at the character-list level). -/
def listInfixB [BEq α] (pat : List α) : List α → Bool
  | [] => List.isPrefixOf pat []
  | c :: cs => List.isPrefixOf pat (c :: cs) || listInfixB pat cs

/-- Python `pat in s` substring test. -/
def strContains (s pat : String) : Bool := listInfixB pat.data s.data

/-- Python `s.lower()` (ASCII case folding; the prefixes and synonym keys
compared in the source are ASCII). -/
def pyLower (s : String) : String := String.mk (s.data.map Char.toLower)

/-- Python `s.startswith(p)`. -/
def pyStartsWith (s p : String) : Bool := List.isPrefixOf p.data s.data

/-- Python `s[:n]` character slicing. -/
def pyTake (s : String) (n : Nat) : String := String.mk (s.data.take n)

/-- Python `s[n:]` character slicing. -/
def pyDrop (s : String) (n : Nat) : String := String.mk (s.data.drop n)

/-- Python `s.strip()`: whitespace removed from both ends. -/
def pyStrip (s : String) : String :=
  String.mk (((s.data.dropWhile Char.isWhitespace).reverse.dropWhile Char.isWhitespace).reverse)

/-- Python `s.strip(chars)`: characters of `chars` removed from both ends. -/
def pyStripSet (s : String) (chars : List Char) : String :=
  String.mk (((s.data.dropWhile (chars.contains ·)).reverse.dropWhile (chars.contains ·)).reverse)

/-- Python `sep.join(parts)`. -/
def pyJoin (sep : String) : List String → String
  | [] => ""
  | [s] => s
  | s :: rest => s ++ sep ++ pyJoin sep rest

/-- Python `s.splitlines()[0]` (first line of a string, split at newline). -/
def firstLine (s : String) : String :=
  String.mk (s.data.takeWhile (fun c => c ≠ '\n'))

/-- Python `unicodedata.normalize("NFKD", s).encode("ascii","ignore")`:
modelled as dropping non-ASCII characters (identity on ASCII input, which is
all the synonym tables contain). -/
def stripAccents (s : String) : String :=
  String.mk (s.data.filter (fun c => c.toNat < 128))

/-! ### Rounding (Python `round`, banker's rounding, over `ℚ`) -/

/-- Python `round(x)` to an integer: round half to even. -/
def roundHalfEven (x : ℚ) : ℤ :=
  let f := ⌊x⌋
  let r := x - f
  if r < 1/2 then f else if 1/2 < r then f + 1 else if f % 2 = 0 then f else f + 1

/-- Python `round(x, places)`. -/
def roundTo (places : ℕ) (x : ℚ) : ℚ :=
  (roundHalfEven (x * 10 ^ places) : ℚ) / 10 ^ places

/-! ### Data model -/

/-- Loan application request dict (`state["req"]` / `app_dict`). -/
structure AppReq where
  name : String
  age : ℚ
  income : ℚ
  loan_amount : ℚ
  credit_score : ℚ
  employment_status : String
  purpose : String
deriving Repr, DecidableEq

/-- Result of `_rule_based` (`{"decision": ..., "reasons": [...]}`). -/
structure Baseline where
  decision : String
  reasons : List String
deriving Repr, DecidableEq

/-- Result dict of `kyc_tool` in `tools.py`. -/
structure KycResult where
  customer_id : String
  kyc_verified : Bool
  pep_match : Bool
  doc_expired : Bool
deriving Repr, DecidableEq

/-- Result dict of `credit_tool` in `tools.py`. -/
structure CreditResult where
  customer_id : String
  delinquencies_12mo : ℕ
  utilization : ℚ
  recent_hard_pulls : ℕ
deriving Repr, DecidableEq

/-- Document returned by the vector store (`page_content` field is all the
pipeline reads). -/
structure Doc where
  page_content : String
deriving Repr, DecidableEq

/-! ### Mock tools (`tools.py`) -/

/-- Source embedding of `kyc_tool` (tools.py lines 4-15). -/
def kyc_tool (customer_id : String) : KycResult :=
  let flagged := pyStartsWith (pyLower customer_id) "x"
    || pyStartsWith (pyLower customer_id) "test"
    || pyStartsWith (pyLower customer_id) "fake"
  { customer_id := customer_id
    kyc_verified := !flagged
    pep_match := flagged
    doc_expired := false }

/-- Source embedding of `credit_tool` (tools.py lines 17-28). -/
def credit_tool (customer_id : String) : CreditResult :=
  let base : ℕ := (customer_id.data.map Char.toNat).sum % 100
  { customer_id := customer_id
    delinquencies_12mo := base % 3
    utilization := min 1 ((0.2 : ℚ) + ((base % 40 : ℕ) : ℚ) / 100)
    recent_hard_pulls := base % 2 }

/-- Identity signal as the spec's §6 interface names it. -/
structure IdentitySignal where
  verified : Bool
  watchlistMatch : Bool
  documentExpired : Bool
deriving Repr, DecidableEq

/-- Credit signal as the spec's §6 interface names it. -/
structure CreditSignal where
  delinquencies12mo : ℕ
  utilization : ℚ
  recentHardPulls : ℕ
deriving Repr, DecidableEq

/-- Modelled from the spec (§4.2): "flag (treat as unverified / PEP-match)
any identity string that case-insensitively starts with x, test, or fake;
otherwise verified, no PEP match, document not expired". -/
def identitySpecCheck (s : String) : IdentitySignal :=
  let flagged := pyStartsWith (pyLower s) "x"
    || pyStartsWith (pyLower s) "test"
    || pyStartsWith (pyLower s) "fake"
  { verified := !flagged, watchlistMatch := flagged, documentExpired := false }

/-- Modelled from the spec (§4.2): "derive a deterministic pseudo-profile
from the sum of character codes of the identity string modulo 100 (base);
delinquencies = base mod 3; utilization = min(1.0, 0.2 + (base mod 40)/100);
recent hard pulls = base mod 2". -/
def creditSpecCheck (s : String) : CreditSignal :=
  let base : ℕ := (s.data.map Char.toNat).sum % 100
  { delinquencies12mo := base % 3
    utilization := min 1 ((0.2 : ℚ) + ((base % 40 : ℕ) : ℚ) / 100)
    recentHardPulls := base % 2 }

/-! ### Rule engine and policy guard (`agent/graph.py`) -/

/-- Source embedding of `_rule_based` (graph.py lines 18-35).  Reason
strings are the source's literals; the decision is resolved by substring
tests over the accumulated reasons exactly as the source does. -/
def _rule_based (req : AppReq) : Baseline :=
  let reasons : List String :=
    (if req.loan_amount > 10 * req.income
      then ["Requested amount exceeds 10× annual income."] else [])
    ++ (if req.credit_score < 520
        then ["Very low credit score (<520)."]
        else if req.credit_score < 620
        then ["Low credit score (520–619). Consider manual review."]
        else [])
    ++ (if (req.employment_status = "student" ∨ req.employment_status = "unemployed")
          ∧ req.loan_amount > (0.5 : ℚ) * req.income
        then ["High risk profile given employment and requested amount."] else [])
  let decision : String :=
    if reasons.any (fun r => strContains r "Very low credit score") then "reject"
    else if reasons.any (fun r => strContains r "exceeds 10×")
         || reasons.any (fun r => strContains r "High risk profile") then "manual_review"
    else "approve"
  { decision := decision, reasons := reasons }

/-- Python `kyc.get("kyc_verified", False)` where `kyc` is either the
`kyc_tool` result or the empty dict. -/
def kycVerifiedOf : Option KycResult → Bool
  | none => false
  | some k => k.kyc_verified

/-- Python `kyc.get("pep_match", False)`. -/
def pepMatchOf : Option KycResult → Bool
  | none => false
  | some k => k.pep_match

/-- Source embedding of `_policy_guard` (graph.py lines 37-43). -/
def _policy_guard (decision : String) (req : AppReq) (kyc : Option KycResult) : String :=
  if decision = "approve" then
    if !(kycVerifiedOf kyc) || pepMatchOf kyc then "manual_review"
    else if req.credit_score < 520 ∨ req.loan_amount > 12 * req.income then "manual_review"
    else decision
  else decision

/-! ### Reason paragraph (`_format_reason_paragraph`, graph.py lines 58-99) -/

/-- Replacement of every non-overlapping occurrence of `pat` (nonempty in
all call sites) by `rep`, left to right (Python `str.replace`). -/
def replaceL [DecidableEq α] (pat rep : List α) : List α → List α
  | [] => []
  | c :: cs =>
    if h : pat ≠ [] ∧ List.isPrefixOf pat (c :: cs) then
      rep ++ replaceL pat rep ((c :: cs).drop pat.length)
    else
      c :: replaceL pat rep cs
termination_by l => l.length
decreasing_by
· simp only [List.length_drop]
  have hp : 1 ≤ pat.length := by
    cases pat with
    | nil => exact absurd rfl h.1
    | cons a as => simp
  have : (c :: cs).length = cs.length + 1 := by simp
  omega
· simp

/-- Python `s.replace(pat, rep)`. -/
def pyReplace (s pat rep : String) : String :=
  String.mk (replaceL pat.data rep.data s.data)

/-- Source embedding of `_format_reason_paragraph` (graph.py lines 58-99).
The request dict always carries the `credit_score` / `income` /
`loan_amount` keys (the rules node would have failed otherwise), so the
three `is not None` context guards always hold; rationals are rendered via
`toString` in place of Python number formatting. -/
def _format_reason_paragraph (req : AppReq) (decision short_reason : String)
    (baseline : Option Baseline) : String :=
  let dti : Option ℚ :=
    if req.income ≠ 0 ∧ req.income > 0
    then some (roundTo 2 (req.loan_amount / max 1 req.income)) else none
  let base_reasons : List String :=
    match baseline with
    | none => []
    | some b => b.reasons.filter (fun r => r ≠ "")
  let p1 := pyStrip ("We decided to " ++ pyReplace decision "_" " "
    ++ " this application. " ++ pyStrip short_reason)
  let ctx_bits : List String :=
    ["credit score " ++ toString req.credit_score,
     "monthly income " ++ toString req.income,
     "requested amount " ++ toString req.loan_amount]
    ++ (match dti with
        | some d => ["amount-to-income ratio ≈ " ++ toString d]
        | none => [])
  let parts : List String :=
    [p1, "Key factors considered include " ++ pyJoin ", " ctx_bits ++ "."]
    ++ (if base_reasons ≠ []
        then ["Rules check notes: " ++ pyJoin "; " base_reasons ++ "."] else [])
  let nxt : String :=
    if decision = "approve" then
      "You can proceed to sign the agreement and upload any required KYC documents."
    else if decision = "reject" then
      "You may reapply after improving your credit profile or adjusting the requested amount."
    else
      "Our team will review your case and may request more documents."
  let paragraph :=
    pyStrip (pyReplace (pyReplace (pyReplace (pyJoin " " parts) "\n" " ") "•" "") "- " "")
  paragraph ++ "\nNext step: " ++ nxt

/-! ### Pipeline state, environment and nodes (`agent/graph.py`) -/

/-- PipelineState: the mutable dict threaded through the LangGraph nodes. -/
structure PState where
  req : AppReq
  baseline : Option Baseline := none
  kyc : Option KycResult := none
  credit : Option CreditResult := none
  similar : List Doc := []
  used_tools : List String := []
  decision : Option String := none
  reason : Option String := none
  errors : List String := []
deriving Repr, DecidableEq

/-- External outcomes of one pipeline run: whether each `try` block's call
raised (`some` error message) and what the generative model returned
(`_ollama_once` already catches its own exceptions and yields `none`). -/
structure Env where
  kycExc : Option String
  creditExc : Option String
  simResult : Except String (List Doc)
  disableLLM : Bool
  ollamaResp : Option String

/-- Python `list(set(tools + [t]))`: same element set, duplicates removed
(the concrete ordering of a Python set is unspecified; `dedup` is one
deterministic representative with the identical set view). -/
def addTool (tools : List String) (t : String) : List String :=
  (tools ++ [t]).dedup

/-- Source embedding of `node_rules` (graph.py lines 102-105). -/
def node_rules (s : PState) : PState :=
  { s with baseline := some (_rule_based s.req)
           used_tools := addTool s.used_tools "rules" }

/-- Source embedding of `node_tools` (graph.py lines 107-119): each mock
lookup is wrapped in its own `try`, a failure appends a tagged error and
leaves the signal absent. -/
def node_tools (env : Env) (s : PState) : PState :=
  let s1 :=
    match env.kycExc with
    | none => { s with kyc := some (kyc_tool s.req.name)
                       used_tools := addTool s.used_tools "kyc_tool" }
    | some e => { s with errors := s.errors ++ ["kyc_tool: " ++ e] }
  match env.creditExc with
  | none => { s1 with credit := some (credit_tool s1.req.name)
                      used_tools := addTool s1.used_tools "credit_tool" }
  | some e => { s1 with errors := s1.errors ++ ["credit_tool: " ++ e] }

/-- Source embedding of `node_memory` (graph.py lines 121-133): the
similarity lookup's outcome is the oracle `env.simResult`; the tool tag is
added only when at least one case came back. -/
def node_memory (env : Env) (s : PState) : PState :=
  match env.simResult with
  | Except.ok docs =>
    let s1 := { s with similar := docs }
    if docs ≠ [] then { s1 with used_tools := addTool s1.used_tools "similar_memory" }
    else s1
  | Except.error e => { s with errors := s.errors ++ ["similarity: " ++ e] }

/-- Source embedding of `node_llm` (graph.py lines 135-156): decision
defaults to `manual_review` when the baseline is absent or falsy, the short
reason is the joined baseline reasons (or the generic fallback), and a
truthy model response replaces it by the response's first line. -/
def node_llm (env : Env) (s : PState) : PState :=
  let base := s.baseline
  let decision : String :=
    match base with
    | none => "manual_review"
    | some b => if b.decision = "" then "manual_review" else b.decision
  let joined := pyJoin "; " (match base with | none => [] | some b => b.reasons)
  let short0 := if joined = "" then "Based on policy and the provided numbers." else joined
  let resp : Option String := if env.disableLLM then none else env.ollamaResp
  let picked : String × List String :=
    match resp with
    | some r =>
      if r ≠ "" then (pyStrip (firstLine r), addTool s.used_tools "llm_reasoning")
      else (short0, s.used_tools)
    | none => (short0, s.used_tools)
  { s with decision := some decision
           reason := some (_format_reason_paragraph s.req decision picked.1 base)
           used_tools := picked.2 }

/-- Source embedding of `node_guard` (graph.py lines 158-171). -/
def node_guard (s : PState) : PState :=
  let d0 : String :=
    match s.decision with
    | none => "manual_review"
    | some d => if d = "" then "manual_review" else d
  let guarded := _policy_guard d0 s.req s.kyc
  if guarded ≠ d0 then
    { s with used_tools := addTool s.used_tools "policy_guard"
             decision := some guarded
             reason := some (_format_reason_paragraph s.req guarded
               "Policy guard adjusted the outcome based on KYC and risk thresholds."
               s.baseline) }
  else s

/-- Initial pipeline state for a request (graph invoked on `{"req": ...}`). -/
def initState (req : AppReq) : PState := { req := req }

/-- State after the `rules` node. -/
def stage1 (req : AppReq) : PState := node_rules (initState req)

/-- State after the `tools` node. -/
def stage2 (env : Env) (req : AppReq) : PState := node_tools env (stage1 req)

/-- State after the `memory` node. -/
def stage3 (env : Env) (req : AppReq) : PState := node_memory env (stage2 env req)

/-- State after the `llm` node. -/
def stage4 (env : Env) (req : AppReq) : PState := node_llm env (stage3 env req)

/-- Completed run: rules → tools → memory → llm → guard (graph.py 173-188). -/
def runPipeline (env : Env) (req : AppReq) : PState := node_guard (stage4 env req)

/-! ### Case retriever (`agent/similarity_memory.py` lines 74-80) -/

/-- Source embedding of `similar_cases`: the whole body (embedder creation,
store opening, similarity search) sits in one `try`; the `store` oracle
models its combined outcome, and any exception yields the empty list. -/
def similar_cases (store : String → Nat → Except String (List Doc))
    (query_text : String) (k : Nat := 3) : List Doc :=
  match store query_text k with
  | Except.ok docs => docs
  | Except.error _ => []

/-! ### Agent-review variant (`agent_with_llm.py`) -/

/-- Approve synonyms of `_normalize_decision` (agent_with_llm.py 32-35). -/
def approve_set : List String :=
  ["approve", "approved", "ok", "accept", "accepted", "grant", "granted",
   "approuve", "approuvee", "aprobado", "aprovado"]

/-- Reject synonyms of `_normalize_decision` (agent_with_llm.py 36-39). -/
def reject_set : List String :=
  ["reject", "rejected", "deny", "denied", "decline", "declined",
   "rejeter", "rejete", "rechazado", "negado"]

/-- Flag synonyms of `_normalize_decision` (agent_with_llm.py 40-43). -/
def flag_set : List String :=
  ["flag", "review", "manual review", "needs review", "hold",
   "surveiller", "revision", "pendiente"]

/-- Normalized lookup key: `_strip_accents(s).strip().lower()`. -/
def normKey (s : String) : String := pyLower (pyStrip (stripAccents s))

/-- Source embedding of `_normalize_decision` (agent_with_llm.py 28-47);
the argument is always `str(...)` at the call sites, so the only falsy
input is the empty string. -/
def _normalize_decision (s : String) : Option String :=
  if s = "" then none
  else
    let t := normKey s
    if approve_set.contains t then some "Approve"
    else if reject_set.contains t then some "Reject"
    else if flag_set.contains t then some "Flag"
    else none

/-- Compliance API response (`{"decision": ..., "reason": ...}`); fields
are optional because the code reads them with `.get` defaults. -/
structure Compliance where
  decision : Option String
  reason : Option String
deriving Repr, DecidableEq

/-- Customer-info API response; a numeric field is `none` when absent or
non-numeric (the code substitutes the string `"unknown"` and then filters
on `isinstance(..., (int, float))`). -/
structure CustomerInfo where
  past_defaults : Option ℚ
  years_with_employer : Option ℚ
  existing_loans : Option ℚ
deriving Repr, DecidableEq

/-- Python `{"note": "Customer info unavailable"}`: no numeric fields. -/
def noCustomer : CustomerInfo := ⟨none, none, none⟩

/-- Untrusted decision card extracted from the generative model's raw text:
`decision` is `str(card.get("decision", ""))`, `used_tools` is present only
when the parsed JSON carried a list. -/
structure RawCard where
  decision : String
  used_tools : Option (List String)
deriving Repr, DecidableEq

/-- Result of `_normalize_card`. -/
structure NormCard where
  decision : String
  reason : String
  used_tools : List String
deriving Repr, DecidableEq

/-- Final output card of `review_application` (the JSON payload under
`"output"`). -/
structure Card where
  decision : String
  reason : String
  reason_detailed : String
  used_tools : List String
deriving Repr, DecidableEq

/-- External outcomes of one `review_application` run: the two attempts of
each HTTP call, the vector store, the main decision model call (already
composed with `_extract_json_block`: `none` = no parseable JSON object) and
the detailed-reason model call. -/
structure AgentEnv where
  compliance1 : Except String Compliance
  compliance2 : Except String Compliance
  customer1 : Except String CustomerInfo
  customer2 : Except String CustomerInfo
  store : String → Nat → Except String (List Doc)
  llmMain : Except String (Option RawCard)
  llmDetail : Except String String

/-- Source embedding of `_call_compliance` (agent_with_llm.py 64-73): one
retry; the second failure propagates. -/
def _call_compliance (env : AgentEnv) : Except String Compliance :=
  match env.compliance1 with
  | Except.ok v => Except.ok v
  | Except.error _ => env.compliance2

/-- Source embedding of `_call_customer` (agent_with_llm.py 75-84). -/
def _call_customer (env : AgentEnv) : Except String CustomerInfo :=
  match env.customer1 with
  | Except.ok v => Except.ok v
  | Except.error _ => env.customer2

/-- Source embedding of `_normalize_card` (agent_with_llm.py 101-117). -/
def _normalize_card (card : RawCard) (compliance : Compliance)
    (used_tools : List String) : NormCard :=
  let decision : String :=
    match _normalize_decision card.decision with
    | some d => d
    | none => (_normalize_decision (compliance.decision.getD "")).getD "Flag"
  let reason := pyStrip (compliance.reason.getD "Decision based on compliance rules")
  let tools : List String :=
    match card.used_tools with
    | some (t :: ts) => t :: ts
    | _ => used_tools
  ⟨decision, reason, tools⟩

/-- Source embedding of `_compute_lti` (agent_with_llm.py 119-124). -/
def _compute_lti (app : AppReq) : Option ℚ :=
  if app.income ≤ 0 then none
  else some (roundTo 3 (app.loan_amount / app.income))

/-- Modelled from the spec (§4.4): "Loan-to-income ratio: amount / income,
rounded to 3 decimals, defined only when income > 0; otherwise treated as
not computable". -/
def ltiSpec (app : AppReq) : Option ℚ :=
  if 0 < app.income then some (roundTo 3 (app.loan_amount / app.income)) else none

/-- Source embedding of `_generate_detailed_reason` (agent_with_llm.py
126-198): the model call's outcome is the `llm` oracle; its failure takes
the deterministic-fallback branch. -/
def _generate_detailed_reason (llm : Except String String) (decision : String)
    (compliance : Compliance) (customer : CustomerInfo)
    (_similar_text : String) (app : AppReq) : String :=
  let lti := _compute_lti app
  let lti_str : String :=
    match lti with
    | some q => toString (roundHalfEven (q * 100)) ++ "%"
    | none => "N/A"
  let short_reason := compliance.reason.getD "Policy-based decision"
  match llm with
  | Except.ok content =>
    let text := pyStrip content
    let text :=
      if pyStartsWith text "```" then
        let t := pyStripSet text ['`', ' ', '\n']
        if pyStartsWith (pyLower t) "json" then pyStrip (pyDrop t 4) else t
      else text
    if text ≠ "" then pyTake text 800 else short_reason
  | Except.error _ =>
    let opening : String :=
      if decision = "Approve" then "Your application has been approved."
      else if decision = "Reject" then "We’re unable to approve your application at this time."
      else "Your application needs a brief manual review."
    let parts : List String :=
      [opening]
      ++ (if short_reason ≠ "" then [short_reason ++ "."] else [])
      ++ (if app.credit_score ≠ 0 then ["Credit score: " ++ toString app.credit_score ++ "."] else [])
      ++ (match lti with
          | some _ => ["Loan-to-income ratio: " ++ lti_str ++ "."]
          | none => [])
      ++ (match customer.years_with_employer with
          | some t => if t ≥ 0 then ["Employment tenure: " ++ toString t ++ " year(s)."] else []
          | none => [])
      ++ (match customer.past_defaults with
          | some d => if d ≥ 0 then ["Past defaults: " ++ toString d ++ "."] else []
          | none => [])
    pyTake (pyJoin " " parts) 800

/-- Source embedding of `_similar_cases_block` (agent_with_llm.py 86-99). -/
def _similar_cases_block (env : AgentEnv) (app : AppReq) : String × Bool :=
  let q := "Age " ++ toString app.age ++ ", income " ++ toString app.income
    ++ ", employment " ++ app.employment_status
    ++ ", credit " ++ toString app.credit_score
    ++ ", loan " ++ toString app.loan_amount ++ ", purpose " ++ app.purpose
  let hits := similar_cases env.store q 3
  if hits = [] then ("No similar prior cases found.", false)
  else
    (pyJoin "\n" ((List.enumFrom 1 hits).map
      (fun p => toString p.1 ++ ") " ++ p.2.page_content)), true)

/-- Source embedding of `review_application` (agent_with_llm.py 201-307). -/
def review_application (env : AgentEnv) (app : AppReq) : Card :=
  match _call_compliance env with
  | Except.error _ =>
    { decision := "Flag"
      reason := "Compliance service unavailable"
      reason_detailed := "We could not complete automated checks. Please try again or contact support."
      used_tools := ["check_compliance"] }
  | Except.ok compliance =>
    let cu : CustomerInfo × List String :=
      match _call_customer env with
      | Except.ok c => (c, ["check_compliance", "customer_info"])
      | Except.error _ => (noCustomer, ["check_compliance"])
    let sim := _similar_cases_block env app
    let used_tools := if sim.2 then cu.2 ++ ["similar_cases"] else cu.2
    match env.llmMain with
    | Except.ok parsedOpt =>
      let card0 : RawCard :=
        match parsedOpt with
        | none => { decision := compliance.decision.getD "Flag", used_tools := some used_tools }
        | some parsed => parsed
      let card := _normalize_card card0 compliance used_tools
      let detailed := _generate_detailed_reason env.llmDetail card.decision compliance cu.1 sim.1 app
      { decision := card.decision, reason := card.reason
        reason_detailed := detailed, used_tools := card.used_tools }
    | Except.error _ =>
      let d := compliance.decision.getD "Flag"
      let detailed := _generate_detailed_reason env.llmDetail d compliance cu.1 sim.1 app
      { decision := d
        reason := pyStrip (compliance.reason.getD "Decision based on compliance rules")
        reason_detailed := detailed
        used_tools := used_tools }

/-! ### Concrete fixtures (used by witnesses) -/

/-- Sample application: clean profile, income 50000, amount 20000. -/
def exReq : AppReq :=
  { name := "alice", age := 30, income := 50000, loan_amount := 20000
    credit_score := 700, employment_status := "employed", purpose := "car" }

/-- Sample application with zero income. -/
def exReq0 : AppReq :=
  { name := "bob", age := 25, income := 0, loan_amount := 1000
    credit_score := 600, employment_status := "student", purpose := "laptop" }

/-- Pipeline environment in which every external call fails or is absent
and the generative model never answers. -/
def exEnvNoLLM : Env :=
  { kycExc := none, creditExc := none, simResult := Except.ok []
    disableLLM := false, ollamaResp := none }

/-- Vector store oracle that always raises. -/
def storeDown : String → Nat → Except String (List Doc) :=
  fun _ _ => Except.error "store unavailable"

/-- Agent environment in which every collaborator is down. -/
def downAgentEnv : AgentEnv :=
  { compliance1 := Except.error "conn", compliance2 := Except.error "conn"
    customer1 := Except.error "conn", customer2 := Except.error "conn"
    store := storeDown
    llmMain := Except.error "llm down", llmDetail := Except.error "llm down" }

/-! ### Helper lemmas -/

theorem mem_addTool_of_mem {ts : List String} {t x : String} (hx : x ∈ ts) :
    x ∈ addTool ts t :=
  List.mem_dedup.mpr (List.mem_append_left _ hx)

theorem subset_addTool (ts : List String) (t : String) : ts ⊆ addTool ts t :=
  fun _ hx => mem_addTool_of_mem hx

theorem addTool_nodup (ts : List String) (t : String) : (addTool ts t).Nodup :=
  List.nodup_dedup _

theorem tri_if_mem (p q : Prop) [Decidable p] [Decidable q] :
    (if p then "reject" else if q then "manual_review" else "approve") = "approve"
      ∨ (if p then "reject" else if q then "manual_review" else "approve") = "reject"
      ∨ (if p then "reject" else if q then "manual_review" else "approve") = "manual_review" := by
  by_cases hp : p
  · simp [hp]
  by_cases hq : q
  · simp [hp, hq]
  · simp [hp, hq]

theorem rule_decision_mem (req : AppReq) :
    (_rule_based req).decision = "approve" ∨ (_rule_based req).decision = "reject"
      ∨ (_rule_based req).decision = "manual_review" := by
  unfold _rule_based
  dsimp only
  exact tri_if_mem _ _

theorem policy_guard_cases (d : String) (req : AppReq) (kyc : Option KycResult) :
    _policy_guard d req kyc = d ∨ _policy_guard d req kyc = "manual_review" := by
  unfold _policy_guard
  split
  · split
    · right; rfl
    split
    · right; rfl
    · left; rfl
  · left; rfl

theorem rule_decision_ne_empty (req : AppReq) : (_rule_based req).decision ≠ "" := by
  rcases rule_decision_mem req with h | h | h <;> simp [h]

theorem node_tools_baseline (env : Env) (s : PState) :
    (node_tools env s).baseline = s.baseline := by
  rcases env with ⟨ke, ce, sr, dl, rsp⟩
  unfold node_tools
  dsimp only
  cases ke <;> cases ce <;> rfl

theorem node_memory_baseline (env : Env) (s : PState) :
    (node_memory env s).baseline = s.baseline := by
  rcases env with ⟨ke, ce, sr, dl, rsp⟩
  unfold node_memory
  dsimp only
  cases sr with
  | ok docs =>
    dsimp only
    split <;> rfl
  | error e => rfl

theorem stage3_baseline (env : Env) (req : AppReq) :
    (stage3 env req).baseline = some (_rule_based req) := by
  rw [stage3, node_memory_baseline, stage2, node_tools_baseline]
  rfl

theorem node_llm_decision (env : Env) (s : PState) :
    (node_llm env s).decision = some (match s.baseline with
      | none => "manual_review"
      | some b => if b.decision = "" then "manual_review" else b.decision) := rfl

theorem stage4_decision (env : Env) (req : AppReq) :
    (stage4 env req).decision = some (_rule_based req).decision := by
  rw [stage4, node_llm_decision, stage3_baseline]
  dsimp only
  rw [if_neg (rule_decision_ne_empty req)]

theorem node_rules_tools_sub (s : PState) :
    s.used_tools ⊆ (node_rules s).used_tools :=
  subset_addTool _ _

theorem node_rules_tools_nodup (s : PState) : (node_rules s).used_tools.Nodup :=
  addTool_nodup _ _

theorem node_tools_tools_sub (env : Env) (s : PState) :
    s.used_tools ⊆ (node_tools env s).used_tools := by
  rcases env with ⟨ke, ce, sr, dl, rsp⟩
  unfold node_tools
  dsimp only
  cases ke <;> cases ce <;> dsimp only
  · exact fun x hx => mem_addTool_of_mem (mem_addTool_of_mem hx)
  · exact fun x hx => mem_addTool_of_mem hx
  · exact fun x hx => mem_addTool_of_mem hx
  · exact fun x hx => hx

theorem node_tools_tools_nodup (env : Env) (s : PState) (h : s.used_tools.Nodup) :
    (node_tools env s).used_tools.Nodup := by
  rcases env with ⟨ke, ce, sr, dl, rsp⟩
  unfold node_tools
  dsimp only
  cases ke <;> cases ce <;> dsimp only
  · exact addTool_nodup _ _
  · exact addTool_nodup _ _
  · exact addTool_nodup _ _
  · exact h

theorem node_memory_tools_sub (env : Env) (s : PState) :
    s.used_tools ⊆ (node_memory env s).used_tools := by
  rcases env with ⟨ke, ce, sr, dl, rsp⟩
  unfold node_memory
  dsimp only
  cases sr with
  | ok docs =>
    dsimp only
    split
    · exact fun x hx => mem_addTool_of_mem hx
    · exact fun x hx => hx
  | error e => exact fun x hx => hx

theorem node_memory_tools_nodup (env : Env) (s : PState) (h : s.used_tools.Nodup) :
    (node_memory env s).used_tools.Nodup := by
  rcases env with ⟨ke, ce, sr, dl, rsp⟩
  unfold node_memory
  dsimp only
  cases sr with
  | ok docs =>
    dsimp only
    split
    · exact addTool_nodup _ _
    · exact h
  | error e => exact h

theorem node_llm_tools_sub (env : Env) (s : PState) :
    s.used_tools ⊆ (node_llm env s).used_tools := by
  unfold node_llm
  dsimp only
  cases hr : (if env.disableLLM then none else env.ollamaResp) with
  | none => exact fun x hx => hx
  | some r =>
    dsimp only
    split
    · exact fun x hx => mem_addTool_of_mem hx
    · exact fun x hx => hx

theorem node_llm_tools_nodup (env : Env) (s : PState) (h : s.used_tools.Nodup) :
    (node_llm env s).used_tools.Nodup := by
  unfold node_llm
  dsimp only
  cases hr : (if env.disableLLM then none else env.ollamaResp) with
  | none => exact h
  | some r =>
    dsimp only
    split
    · exact addTool_nodup _ _
    · exact h

theorem node_guard_tools_sub (s : PState) :
    s.used_tools ⊆ (node_guard s).used_tools := by
  unfold node_guard
  dsimp only
  split
  · exact fun x hx => mem_addTool_of_mem hx
  · exact fun x hx => hx

theorem node_guard_tools_nodup (s : PState) (h : s.used_tools.Nodup) :
    (node_guard s).used_tools.Nodup := by
  unfold node_guard
  dsimp only
  split
  · exact addTool_nodup _ _
  · exact h

/-! ### Claim theorems -/

/-- C1: for every environment (any tool/store/model outcomes) and every
request, the completed pipeline run has its decision field set, and it is
one of exactly approve, reject, manual_review: node_llm always sets it
(defaulting to manual_review when the baseline is absent or falsy) and
node_guard only ever maps it to another member of that set. -/
theorem pipeline_decision_closed (env : Env) (req : AppReq) :
    ∃ d, (runPipeline env req).decision = some d
      ∧ (d = "approve" ∨ d = "reject" ∨ d = "manual_review") := by
  have hval := rule_decision_mem req
  have h4 : (stage4 env req).decision = some (_rule_based req).decision :=
    stage4_decision env req
  unfold runPipeline node_guard
  rw [h4]
  dsimp only
  rw [if_neg (rule_decision_ne_empty req)]
  split
  · refine ⟨_, rfl, ?_⟩
    rcases policy_guard_cases (_rule_based req).decision (stage4 env req).req
        (stage4 env req).kyc with hg | hg
    · rw [hg]; exact hval
    · rw [hg]; right; right; rfl
  · exact ⟨_, h4, hval⟩

/-- C1 witness: the closure property evaluated at a concrete environment
and request. -/
theorem pipeline_decision_closed_witness :
    ∃ d, (runPipeline exEnvNoLLM exReq).decision = some d
      ∧ (d = "approve" ∨ d = "reject" ∨ d = "manual_review") :=
  pipeline_decision_closed exEnvNoLLM exReq

/-- C5: across one pipeline run started from the empty audit list, every
stage's used_tools contains (as a set) the previous stage's list, and every
stage's list is duplicate-free. -/
theorem used_tools_monotone_nodup (env : Env) (req : AppReq) :
    ((initState req).used_tools ⊆ (stage1 req).used_tools
      ∧ (stage1 req).used_tools ⊆ (stage2 env req).used_tools
      ∧ (stage2 env req).used_tools ⊆ (stage3 env req).used_tools
      ∧ (stage3 env req).used_tools ⊆ (stage4 env req).used_tools
      ∧ (stage4 env req).used_tools ⊆ (runPipeline env req).used_tools)
    ∧ ((stage1 req).used_tools.Nodup
      ∧ (stage2 env req).used_tools.Nodup
      ∧ (stage3 env req).used_tools.Nodup
      ∧ (stage4 env req).used_tools.Nodup
      ∧ (runPipeline env req).used_tools.Nodup) := by
  have h1 : (stage1 req).used_tools.Nodup := node_rules_tools_nodup _
  have h2 : (stage2 env req).used_tools.Nodup := node_tools_tools_nodup _ _ h1
  have h3 : (stage3 env req).used_tools.Nodup := node_memory_tools_nodup _ _ h2
  have h4 : (stage4 env req).used_tools.Nodup := node_llm_tools_nodup _ _ h3
  have h5 : (runPipeline env req).used_tools.Nodup := node_guard_tools_nodup _ h4
  exact ⟨⟨node_rules_tools_sub _, node_tools_tools_sub _ _, node_memory_tools_sub _ _,
    node_llm_tools_sub _ _, node_guard_tools_sub _⟩, h1, h2, h3, h4, h5⟩

/-- C5 witness: monotone, duplicate-free audit list at a concrete run. -/
theorem used_tools_monotone_nodup_witness :
    (stage1 exReq).used_tools ⊆ (stage2 exEnvNoLLM exReq).used_tools
      ∧ (runPipeline exEnvNoLLM exReq).used_tools.Nodup :=
  ⟨(used_tools_monotone_nodup exEnvNoLLM exReq).1.2.1,
   (used_tools_monotone_nodup exEnvNoLLM exReq).2.2.2.2.2⟩

/-- C3: the policy guard returns reject and manual_review unchanged; on
approve it downgrades to manual_review exactly when the identity signal is
absent/unverified, or flags a PEP match, or the credit score is below 520,
or the amount exceeds 12× income; and its output is approve only if its
input was approve. -/
theorem policy_guard_spec (d : String) (req : AppReq) (kyc : Option KycResult) :
    (d ≠ "approve" → _policy_guard d req kyc = d)
    ∧ (d = "approve" →
        _policy_guard d req kyc =
          (if kycVerifiedOf kyc = false ∨ pepMatchOf kyc = true
              ∨ req.credit_score < 520 ∨ req.loan_amount > 12 * req.income
           then "manual_review" else "approve"))
    ∧ (_policy_guard d req kyc = "approve" → d = "approve")
    ∧ (d = "reject" → _policy_guard d req kyc = "reject")
    ∧ (d = "manual_review" → _policy_guard d req kyc = "manual_review") := by
  refine ⟨?_, ?_, ?_, ?_, ?_⟩
  · intro hd
    unfold _policy_guard
    rw [if_neg hd]
  · intro hd
    subst hd
    unfold _policy_guard
    rw [if_pos rfl]
    by_cases h1 : kycVerifiedOf kyc = true <;> by_cases h2 : pepMatchOf kyc = true <;>
      by_cases hc : req.credit_score < 520 ∨ req.loan_amount > 12 * req.income <;>
        simp [h1, h2, hc, Bool.not_eq_true]
  · by_cases hd : d = "approve"
    · exact fun _ => hd
    · unfold _policy_guard
      rw [if_neg hd]
      exact fun h => absurd h hd
  · intro hd
    subst hd
    unfold _policy_guard
    rw [if_neg (by decide)]
  · intro hd
    subst hd
    unfold _policy_guard
    rw [if_neg (by decide)]

/-- C3 witness: the guard evaluated at a concrete approve downgrade (absent
identity signal) and at a concrete reject pass-through. -/
theorem policy_guard_spec_witness :
    (("approve" : String) ≠ "" → True)
    ∧ _policy_guard "reject" exReq none = "reject"
    ∧ _policy_guard "approve" exReq none =
        (if kycVerifiedOf (none : Option KycResult) = false
            ∨ pepMatchOf (none : Option KycResult) = true
            ∨ exReq.credit_score < 520 ∨ exReq.loan_amount > 12 * exReq.income
         then "manual_review" else "approve") :=
  ⟨fun _ => trivial,
   (policy_guard_spec "reject" exReq none).2.2.2.1 rfl,
   (policy_guard_spec "approve" exReq none).2.1 rfl⟩

/-- C8: the mock identity and credit checks agree bit-for-bit with the
spec's reference semantics on every input string, and the concrete string
"testuser42" is flagged (unverified, PEP match). -/
theorem mock_tools_reference_semantics :
    (∀ s : String,
      (kyc_tool s).kyc_verified = (identitySpecCheck s).verified
      ∧ (kyc_tool s).pep_match = (identitySpecCheck s).watchlistMatch
      ∧ (kyc_tool s).doc_expired = (identitySpecCheck s).documentExpired
      ∧ (credit_tool s).delinquencies_12mo = (creditSpecCheck s).delinquencies12mo
      ∧ (credit_tool s).utilization = (creditSpecCheck s).utilization
      ∧ (credit_tool s).recent_hard_pulls = (creditSpecCheck s).recentHardPulls)
    ∧ (kyc_tool "testuser42").kyc_verified = false
    ∧ (kyc_tool "testuser42").pep_match = true :=
  ⟨fun _ => ⟨rfl, rfl, rfl, rfl, rfl, rfl⟩, by decide, by decide⟩

/-- C9: the case retriever never raises: an erroring store yields the empty
list, and a successful store result is passed through, so whenever the
store honours its interface (at most k hits) the retriever returns at most
k hits. -/
theorem similar_cases_total (store : String → Nat → Except String (List Doc))
    (q : String) (k : Nat) :
    (∀ e, store q k = Except.error e → similar_cases store q k = [])
    ∧ (∀ docs, store q k = Except.ok docs →
        similar_cases store q k = docs
        ∧ (docs.length ≤ k → (similar_cases store q k).length ≤ k)) := by
  constructor
  · intro e he
    unfold similar_cases
    rw [he]
  · intro docs hd
    have heq : similar_cases store q k = docs := by
      unfold similar_cases
      rw [hd]
    exact ⟨heq, fun hlen => heq ▸ hlen⟩

/-- C9 witness: the retriever evaluated over a store that always raises. -/
theorem similar_cases_total_witness :
    storeDown "query" 3 = Except.error "store unavailable"
    ∧ similar_cases storeDown "query" 3 = [] :=
  ⟨rfl, (similar_cases_total storeDown "query" 3).1 "store unavailable" rfl⟩

/-- C10: when both compliance attempts fail, review_application returns the
fixed Flag card with reason "Compliance service unavailable" and used_tools
["check_compliance"], independent of the customer-info, retrieval and
generative oracles (they are skipped). -/
theorem review_application_compliance_down (env : AgentEnv) (app : AppReq)
    (e1 e2 : String)
    (h1 : env.compliance1 = Except.error e1)
    (h2 : env.compliance2 = Except.error e2) :
    review_application env app =
      { decision := "Flag"
        reason := "Compliance service unavailable"
        reason_detailed := "We could not complete automated checks. Please try again or contact support."
        used_tools := ["check_compliance"] } := by
  unfold review_application _call_compliance
  rw [h1, h2]

/-- C10 witness: the compliance-failure card at a concrete all-down
environment and application. -/
theorem review_application_compliance_down_witness :
    downAgentEnv.compliance1 = Except.error "conn"
    ∧ downAgentEnv.compliance2 = Except.error "conn"
    ∧ review_application downAgentEnv exReq =
      { decision := "Flag"
        reason := "Compliance service unavailable"
        reason_detailed := "We could not complete automated checks. Please try again or contact support."
        used_tools := ["check_compliance"] } :=
  ⟨rfl, rfl, review_application_compliance_down downAgentEnv exReq "conn" "conn" rfl rfl⟩

theorem mem_ite_singleton {p : Prop} [Decidable p] {x a : String} :
    x ∈ (if p then [a] else []) ↔ p ∧ x = a := by
  split <;> simp_all

theorem mem_ite_ite_singleton {p q : Prop} [Decidable p] [Decidable q] {x a b : String} :
    x ∈ (if p then [a] else if q then [b] else []) ↔ (p ∧ x = a) ∨ (¬p ∧ q ∧ x = b) := by
  split
  · simp_all
  · split <;> simp_all

theorem scVL1 : strContains "Requested amount exceeds 10× annual income." "Very low credit score" = false := by decide

theorem scVL2 : strContains "Very low credit score (<520)." "Very low credit score" = true := by decide

theorem scVL3 : strContains "Low credit score (520–619). Consider manual review." "Very low credit score" = false := by decide

theorem scVL4 : strContains "High risk profile given employment and requested amount." "Very low credit score" = false := by decide

theorem scEX1 : strContains "Requested amount exceeds 10× annual income." "exceeds 10×" = true := by decide

theorem scEX2 : strContains "Very low credit score (<520)." "exceeds 10×" = false := by decide

theorem scEX3 : strContains "Low credit score (520–619). Consider manual review." "exceeds 10×" = false := by decide

theorem scEX4 : strContains "High risk profile given employment and requested amount." "exceeds 10×" = false := by decide

theorem scHR1 : strContains "Requested amount exceeds 10× annual income." "High risk profile" = false := by decide

theorem scHR2 : strContains "Very low credit score (<520)." "High risk profile" = false := by decide

theorem scHR3 : strContains "Low credit score (520–619). Consider manual review." "High risk profile" = false := by decide

theorem scHR4 : strContains "High risk profile given employment and requested amount." "High risk profile" = true := by decide

theorem rb_mem_r1 (req : AppReq) :
    "Requested amount exceeds 10× annual income." ∈ (_rule_based req).reasons
      ↔ req.loan_amount > 10 * req.income := by
  simp [_rule_based, List.mem_append, mem_ite_singleton, mem_ite_ite_singleton]

theorem rb_mem_r2 (req : AppReq) :
    "Very low credit score (<520)." ∈ (_rule_based req).reasons
      ↔ req.credit_score < 520 := by
  simp [_rule_based, List.mem_append, mem_ite_singleton, mem_ite_ite_singleton]

theorem rb_mem_r3 (req : AppReq) :
    "Low credit score (520–619). Consider manual review." ∈ (_rule_based req).reasons
      ↔ (520 ≤ req.credit_score ∧ req.credit_score < 620) := by
  simp [_rule_based, List.mem_append, mem_ite_singleton, mem_ite_ite_singleton, not_lt]

theorem rb_mem_r4 (req : AppReq) :
    "High risk profile given employment and requested amount." ∈ (_rule_based req).reasons
      ↔ ((req.employment_status = "student" ∨ req.employment_status = "unemployed")
          ∧ req.loan_amount > (0.5 : ℚ) * req.income) := by
  simp [_rule_based, List.mem_append, mem_ite_singleton, mem_ite_ite_singleton]

theorem rb_decision_spec (req : AppReq) :
    (_rule_based req).decision =
      (if req.credit_score < 520 then "reject"
       else if req.loan_amount > 10 * req.income
          ∨ ((req.employment_status = "student" ∨ req.employment_status = "unemployed")
              ∧ req.loan_amount > (0.5 : ℚ) * req.income) then "manual_review"
       else "approve") := by
  unfold _rule_based
  dsimp only
  by_cases h2 : req.credit_score < 520 <;>
    by_cases h1 : req.loan_amount > 10 * req.income <;>
      by_cases h3 : req.credit_score < 620 <;>
        by_cases h4 : (req.employment_status = "student" ∨ req.employment_status = "unemployed")
            ∧ req.loan_amount > (0.5 : ℚ) * req.income <;>
          simp [h1, h2, h3, h4, List.any_append, List.any_cons, List.any_nil,
            scVL1, scVL2, scVL3, scVL4, scEX1, scEX2, scEX3, scEX4,
            scHR1, scHR2, scHR3, scHR4]

/-- C2: the rule engine is a pure function that accumulates one reason per
independently evaluated condition (amount > 10× income; credit score < 520;
520 ≤ score < 620; student/unemployed with amount > 0.5× income) and
resolves the decision by severity: reject on very-low credit score, else
manual_review on exceeds-10× or high-risk-profile, else approve. -/
theorem rule_engine_spec (req : AppReq) :
    ((_rule_based req).decision =
      (if req.credit_score < 520 then "reject"
       else if req.loan_amount > 10 * req.income
          ∨ ((req.employment_status = "student" ∨ req.employment_status = "unemployed")
              ∧ req.loan_amount > (0.5 : ℚ) * req.income) then "manual_review"
       else "approve"))
    ∧ ("Requested amount exceeds 10× annual income." ∈ (_rule_based req).reasons
        ↔ req.loan_amount > 10 * req.income)
    ∧ ("Very low credit score (<520)." ∈ (_rule_based req).reasons
        ↔ req.credit_score < 520)
    ∧ ("Low credit score (520–619). Consider manual review." ∈ (_rule_based req).reasons
        ↔ (520 ≤ req.credit_score ∧ req.credit_score < 620))
    ∧ ("High risk profile given employment and requested amount." ∈ (_rule_based req).reasons
        ↔ ((req.employment_status = "student" ∨ req.employment_status = "unemployed")
            ∧ req.loan_amount > (0.5 : ℚ) * req.income)) :=
  ⟨rb_decision_spec req, rb_mem_r1 req, rb_mem_r2 req, rb_mem_r3 req, rb_mem_r4 req⟩

/-- C2 witness: severity resolution and reason accumulation at a concrete
clean application. -/
theorem rule_engine_spec_witness :
    ("Very low credit score (<520)." ∈ (_rule_based exReq).reasons
      ↔ exReq.credit_score < 520)
    ∧ ((_rule_based exReq).decision =
      (if exReq.credit_score < 520 then "reject"
       else if exReq.loan_amount > 10 * exReq.income
          ∨ ((exReq.employment_status = "student" ∨ exReq.employment_status = "unemployed")
              ∧ exReq.loan_amount > (0.5 : ℚ) * exReq.income) then "manual_review"
       else "approve")) :=
  ⟨(rule_engine_spec exReq).2.2.1, (rule_engine_spec exReq).1⟩

/-- C4 counterexample: card-level normalization of unrecognized generative
text is not always the safe default — when the compliance decision is
"approve", _normalize_card maps a card whose own decision text is
"gibberish" to "Approve", not "Flag". -/
theorem normalize_card_gibberish_can_approve :
    (_normalize_card { decision := "gibberish", used_tools := none }
        { decision := some "approve", reason := some "ok" }
        ["check_compliance"]).decision = "Approve" := by
  decide

/-- C4 (amended): _normalize_decision never maps a string whose normalized
key is outside the approve table to Approve — in particular "gibberish"
normalizes to none; _normalize_card yields the safe default "Flag" when
both the card's and the compliance decision texts are unrecognized, and
yields "Approve" only when the card's or the compliance decision text is a
recognized approve synonym. -/
theorem normalize_decision_safe :
    (∀ s : String, approve_set.contains (normKey s) = false →
      _normalize_decision s ≠ some "Approve")
    ∧ _normalize_decision "gibberish" = none
    ∧ (∀ (card : RawCard) (comp : Compliance) (tools : List String),
        _normalize_decision card.decision = none →
        _normalize_decision (comp.decision.getD "") = none →
        (_normalize_card card comp tools).decision = "Flag")
    ∧ (∀ (card : RawCard) (comp : Compliance) (tools : List String),
        (_normalize_card card comp tools).decision = "Approve" →
        _normalize_decision card.decision = some "Approve"
          ∨ _normalize_decision (comp.decision.getD "") = some "Approve") := by
  refine ⟨?_, by decide, ?_, ?_⟩
  · intro s h
    unfold _normalize_decision
    dsimp only
    split
    · simp
    · rw [h]
      simp only [Bool.false_eq_true, if_false]
      split
      · simp
      split
      · simp
      · simp
  · intro card comp tools h1 h2
    unfold _normalize_card
    dsimp only
    rw [h1, h2]
    rfl
  · intro card comp tools h
    unfold _normalize_card at h
    dsimp only at h
    cases hc : _normalize_decision card.decision with
    | some d =>
      rw [hc] at h
      dsimp only at h
      subst h
      exact Or.inl rfl
    | none =>
      rw [hc] at h
      dsimp only at h
      cases hc2 : _normalize_decision (comp.decision.getD "") with
      | some d =>
        rw [hc2] at h
        dsimp only [Option.getD] at h
        subst h
        exact Or.inr rfl
      | none =>
        rw [hc2] at h
        simp at h

/-- C4 witness: the amended safety statement evaluated at "gibberish" and
at a doubly-unrecognized card. -/
theorem normalize_decision_safe_witness :
    approve_set.contains (normKey "gibberish") = false
    ∧ _normalize_decision "gibberish" ≠ some "Approve"
    ∧ (_normalize_card { decision := "gibberish", used_tools := none }
        { decision := some "nonsense", reason := none } []).decision = "Flag" :=
  ⟨by decide,
   normalize_decision_safe.1 "gibberish" (by decide),
   normalize_decision_safe.2.2.1 { decision := "gibberish", used_tools := none }
     { decision := some "nonsense", reason := none } [] (by decide) (by decide)⟩

theorem pyTake_len (s : String) (n : Nat) : (pyTake s n).length = min n s.length := by
  show (s.data.take n).length = min n s.data.length
  exact List.length_take n s.data

theorem le_pyJoin_len (sep a : String) (l : List String) :
    a.length ≤ (pyJoin sep (a :: l)).length := by
  cases l with
  | nil => simp [pyJoin]
  | cons b bs =>
    show a.length ≤ (a ++ sep ++ pyJoin sep (b :: bs)).length
    rw [String.length_append, String.length_append]
    omega

theorem format_reason_len (req : AppReq) (d sr : String) (b : Option Baseline) :
    0 < (_format_reason_paragraph req d sr b).length := by
  unfold _format_reason_paragraph
  dsimp only
  rw [String.length_append, String.length_append]
  have h : 0 < ("\nNext step: " : String).length := by decide
  omega

theorem detailed_fallback_len (e d : String) (comp : Compliance)
    (cust : CustomerInfo) (st : String) (app : AppReq) :
    0 < (_generate_detailed_reason (Except.error e) d comp cust st app).length := by
  unfold _generate_detailed_reason
  dsimp only
  simp only [List.singleton_append, List.cons_append]
  rw [pyTake_len]
  refine lt_min (by norm_num) ?_
  refine lt_of_lt_of_le ?_ (le_pyJoin_len " " _ _)
  split
  · decide
  split
  · decide
  · decide

theorem pyStartsWith_pyTake_pyJoin (op : String) (l : List String) (n : Nat)
    (h : op.data.length ≤ n) :
    pyStartsWith (pyTake (pyJoin " " (op :: l)) n) op = true := by
  cases l with
  | nil =>
    show op.data.isPrefixOf (op.data.take n) = true
    rw [List.take_of_length_le h]
    exact List.isPrefixOf_iff_prefix.mpr (List.prefix_refl _)
  | cons b bs =>
    show op.data.isPrefixOf ((op ++ " " ++ pyJoin " " (b :: bs)).data.take n) = true
    rw [String.data_append, String.data_append, List.append_assoc,
      List.take_append_eq_append_take, List.take_of_length_le h]
    exact List.isPrefixOf_iff_prefix.mpr (List.prefix_append _ _)

theorem detailed_fallback_opening (e d : String) (comp : Compliance)
    (cust : CustomerInfo) (st : String) (app : AppReq) :
    pyStartsWith (_generate_detailed_reason (Except.error e) d comp cust st app)
      (if d = "Approve" then "Your application has been approved."
       else if d = "Reject" then "We’re unable to approve your application at this time."
       else "Your application needs a brief manual review.") = true := by
  unfold _generate_detailed_reason
  dsimp only
  simp only [List.singleton_append, List.cons_append]
  split
  · exact pyStartsWith_pyTake_pyJoin _ _ _ (by decide)
  split
  · exact pyStartsWith_pyTake_pyJoin _ _ _ (by decide)
  · exact pyStartsWith_pyTake_pyJoin _ _ _ (by decide)

/-- C6: if the generative collaborator never answers, node_llm still builds
the reason paragraph from the joined rule-engine reasons (or the generic
fallback string) and that paragraph is non-empty; and the detailed-reason
generator's exception branch always returns non-empty text led by the
opening sentence keyed by the decision value. -/
theorem narration_fallback_nonempty (env : Env) (s : PState)
    (h : env.ollamaResp = none) :
    ((node_llm env s).reason = some (_format_reason_paragraph s.req
        (match s.baseline with
         | none => "manual_review"
         | some b => if b.decision = "" then "manual_review" else b.decision)
        (if pyJoin "; " (match s.baseline with | none => [] | some b => b.reasons) = ""
         then "Based on policy and the provided numbers."
         else pyJoin "; " (match s.baseline with | none => [] | some b => b.reasons))
        s.baseline))
    ∧ (∃ r, (node_llm env s).reason = some r ∧ 0 < r.length)
    ∧ (∀ (e d : String) (comp : Compliance) (cust : CustomerInfo)
        (st : String) (app : AppReq),
        0 < (_generate_detailed_reason (Except.error e) d comp cust st app).length
        ∧ pyStartsWith (_generate_detailed_reason (Except.error e) d comp cust st app)
            (if d = "Approve" then "Your application has been approved."
             else if d = "Reject" then "We’re unable to approve your application at this time."
             else "Your application needs a brief manual review.") = true) := by
  have hr : (if env.disableLLM then none else env.ollamaResp) = none := by
    cases env.disableLLM <;> simp [h]
  refine ⟨?_, ⟨_, rfl, format_reason_len _ _ _ _⟩,
    fun e d comp cust st app =>
      ⟨detailed_fallback_len e d comp cust st app,
       detailed_fallback_opening e d comp cust st app⟩⟩
  unfold node_llm
  dsimp only
  rw [hr]

/-- C6 witness: the fallback narration at a concrete environment with no
generative response and a concrete state. -/
theorem narration_fallback_nonempty_witness :
    exEnvNoLLM.ollamaResp = none
    ∧ (∃ r, (node_llm exEnvNoLLM (initState exReq)).reason = some r ∧ 0 < r.length) :=
  ⟨rfl, (narration_fallback_nonempty exEnvNoLLM (initState exReq) rfl).2.1⟩

/-- C7: the loan-to-income computation agrees with the spec's contract —
absent (no exception) exactly when income ≤ 0, amount/income rounded to 3
decimals when income > 0 — and income=50000, amount=20000 yields exactly
0.4 while income=0 yields the absent value. -/
theorem compute_lti_spec (app : AppReq) :
    (_compute_lti app = ltiSpec app)
    ∧ (app.income ≤ 0 → _compute_lti app = none)
    ∧ _compute_lti exReq = some (2/5)
    ∧ _compute_lti exReq0 = none := by
  refine ⟨?_, ?_, ?_, ?_⟩
  · unfold _compute_lti ltiSpec
    by_cases h : app.income ≤ 0
    · rw [if_pos h, if_neg (not_lt.mpr h)]
    · rw [if_neg h, if_pos (not_le.mp h)]
  · intro h
    unfold _compute_lti
    rw [if_pos h]
  · show _compute_lti exReq = some (2/5)
    norm_num [_compute_lti, exReq, roundTo, roundHalfEven]
  · norm_num [_compute_lti, exReq0]

/-- C7 witness: the zero-income hypothesis discharged at the concrete
zero-income application. -/
theorem compute_lti_spec_witness :
    exReq0.income ≤ 0 ∧ _compute_lti exReq0 = none :=
  ⟨by norm_num [exReq0], (compute_lti_spec exReq0).2.1 (by norm_num [exReq0])⟩

end LoanApp
